import Mathlib

/-!
# Verification of the realtime-translation scheduling core

Shallow embedding of the streaming scheduler / session state machine of the
`useRealtimeSession` hook (source: `src/src/app/hooks/useMemory.ts`, second
document): fragment accumulation (`accumulatedTranscriptionRef`), the flush
policy (`shouldTranslate`), the single-flight request coordinator
(`isResponseInProgressRef` / `pendingTranslationRef` /
`sendTranslationRequest`), the transport-event dispatcher
(`handleTransportEvent`), the lifecycle (`connect` / `disconnect`) and the
message helpers (`sendUserText`, `sendEvent`, `mute`, `interrupt`,
`pushToTalkStart`, `pushToTalkStop`).

The mutable refs of the hook become fields of `SessionState`; the calls the
hook makes on the session / transport (outbound backend traffic and other
externally visible calls) are recorded in an append-only trace `sent`.
JavaScript string operations are modelled on `String` / `List Char`:
`String.prototype.trim` is `jsTrim`, and the length of
`s.trim().split(/\s+/)` is `jsWordCount s` (JavaScript's split of the empty
string yields `[""]`, of length 1, which the model reproduces).
Time (`Date.now()`) is a `Nat` parameter carried by the inbound event.
-/

/-! ## Character-list helpers: trimming, whitespace stripping, token count -/

/-- Drop leading and trailing whitespace from a character list
(the semantics of JavaScript `String.prototype.trim`). -/
def trimChars (l : List Char) : List Char :=
  (((l.dropWhile Char.isWhitespace).reverse).dropWhile Char.isWhitespace).reverse

/-- JavaScript `s.trim()`. -/
def jsTrim (s : String) : String :=
  String.mk (trimChars s.data)

/-- Remove every whitespace character.  Two strings are "equal modulo the
whitespace trimming/space-joining rule" when their `stripWs` images agree. -/
def stripWs (s : String) : String :=
  String.mk (s.data.filter (fun c => !c.isWhitespace))

/-- Number of maximal whitespace-free runs in a character list.
The `inWord` flag records whether the previous character was part of a word. -/
def countTokensAux : List Char → Bool → Nat
  | [], _ => 0
  | c :: cs, inWord =>
    if c.isWhitespace then countTokensAux cs false
    else (if inWord then 0 else 1) + countTokensAux cs true

/-- Number of whitespace-separated tokens of a string. -/
def countTokens (s : String) : Nat :=
  countTokensAux s.data false

/-- Length of the JavaScript array `s.trim().split(/\s+/)`: splitting the
empty string yields `[""]` (length 1); a trimmed nonempty string splits into
its whitespace-separated tokens. -/
def jsWordCount (s : String) : Nat :=
  if jsTrim s = "" then 1 else countTokens (jsTrim s)

/-! ## The scheduling model -/

/-- Externally visible calls issued by the hook, in order.
`responseCreate t` is the `response.create` event built by
`sendTranslationRequest`; its `instructions` string embeds the trimmed text
`t` in the fixed template
`Translate this English text to Spanish immediately: "t"`.
`responseCreatePTT` is the bare `response.create` sent by `pushToTalkStop`. -/
inductive OutEvent where
  | responseCreate (textToTranslate : String)
  | sendMessage (text : String)
  | inputAudioBufferClear
  | inputAudioBufferCommit
  | responseCreatePTT
  | muteSet (m : Bool)
  | interruptCall
  deriving DecidableEq, Repr

/-- Inbound transport events dispatched by `handleTransportEvent`.
`transcriptionDelta` carries the fragment `event.delta` and the value of
`Date.now()` observed while handling it; the remaining handled tags carry
nothing the scheduler reads.  `other` stands for every unrecognized tag
(routed to the generic logging path). -/
inductive InEvent where
  | transcriptionCompleted
  | transcriptionDelta (delta : String) (now : Nat)
  | audioTranscriptDone
  | audioTranscriptDelta
  | responseDone
  | other
  deriving DecidableEq, Repr

/-- The mutable state of one `useRealtimeSession` instance.
`sessionOpen` is `sessionRef.current !== null` (true exactly while
connected); `accumulated` is `accumulatedTranscriptionRef.current`;
`lastTranslationTime` is `lastTranslationTimeRef.current`;
`isResponseInProgress` is `isResponseInProgressRef.current`;
`pendingTranslation` is `pendingTranslationRef.current`;
`isPTTActive` is `isPTTActiveRef.current`; `sent` is the trace of
externally visible calls made so far. -/
structure SessionState where
  sessionOpen : Bool
  accumulated : String
  lastTranslationTime : Nat
  isResponseInProgress : Bool
  pendingTranslation : String
  isPTTActive : Bool
  sent : List OutEvent
  deriving DecidableEq, Repr

/-- `sendTranslationRequest`, with the transport send allowed to fail.
Source:
```
const sendTranslationRequest = (textToTranslate) => {
  if (!sessionRef.current || !textToTranslate.trim()) return;
  isResponseInProgressRef.current = true;
  sessionRef.current.transport.sendEvent({ type: 'response.create', ... });
};
```
`sendFails = true` models `transport.sendEvent` raising: the flag assignment
before the send has already happened and is kept, the event is not recorded,
and the second component reports that an error escaped to the caller.
`sendFails = false` is the normal path. -/
def sendTranslationRequestF (sendFails : Bool) (textToTranslate : String)
    (s : SessionState) : SessionState × Bool :=
  if s.sessionOpen = false ∨ jsTrim textToTranslate = "" then (s, false)
  else
    let s1 := { s with isResponseInProgress := true }
    if sendFails then (s1, true)
    else ({ s1 with sent := s1.sent ++ [.responseCreate (jsTrim textToTranslate)] }, false)

/-- `sendTranslationRequest` on the normal (non-failing) transport path. -/
def sendTranslationRequest (textToTranslate : String) (s : SessionState) : SessionState :=
  (sendTranslationRequestF false textToTranslate s).1

/-- The coalescing join used in the `transcription.delta` handler:
`pending ? `${pending} ${newText}` : newText`. -/
def joinPending (pending newText : String) : String :=
  if pending = "" then newText else pending ++ " " ++ newText

/-- The flush decision of the `transcription.delta` handler, as the code
computes it: `shouldTranslate && accumulated.trim()` where
`shouldTranslate = words.length >= 3 || (now - lastTranslationTime > 1000 && words.length >= 1)`
and `words = accumulated.trim().split(/\s+/)`. -/
def flushDecision (buf : String) (lastFlushAt now : Nat) : Bool :=
  (jsWordCount buf ≥ 3 || (decide (now - lastFlushAt > 1000) && jsWordCount buf ≥ 1))
    && !(jsTrim buf = "")

/-- The dispatcher `handleTransportEvent`.  The external collaborators it
invokes (`historyHandlers.*`, `logServerEvent`) carry no scheduler state and
are not modelled.  In the `transcription.delta` arm the guard
`sessionRef.current && event.delta` is `sessionOpen ∧ delta ≠ ""`
(JavaScript truthiness of the fragment string); on a flush the accumulator
is cleared and `lastTranslationTimeRef` set to `now` in both branches. -/
def handleTransportEvent (event : InEvent) (s : SessionState) : SessionState :=
  match event with
  | .transcriptionCompleted => { s with accumulated := "" }
  | .transcriptionDelta delta now =>
    if s.sessionOpen = true ∧ delta ≠ "" then
      let acc := s.accumulated ++ delta
      if flushDecision acc s.lastTranslationTime now then
        if s.isResponseInProgress then
          { s with pendingTranslation := joinPending s.pendingTranslation (jsTrim acc),
                   accumulated := "", lastTranslationTime := now }
        else
          { sendTranslationRequest (jsTrim acc) s with
              accumulated := "", lastTranslationTime := now }
      else
        { s with accumulated := acc }
    else s
  | .responseDone =>
    let s1 := { s with isResponseInProgress := false }
    if s1.pendingTranslation ≠ "" then
      { sendTranslationRequest s1.pendingTranslation s1 with pendingTranslation := "" }
    else s1
  | .audioTranscriptDone => s
  | .audioTranscriptDelta => s
  | .other => s

/-- Fold `handleTransportEvent` over an inbound event sequence. -/
def processEvents (es : List InEvent) (s : SessionState) : SessionState :=
  es.foldl (fun t e => handleTransportEvent e t) s

/-- `connect` (with a successful handshake): a no-op when a session already
exists, otherwise opens the session and resets the translation state exactly
as the code does after `await sessionRef.current.connect(...)`:
`accumulated := ''`, `lastTranslationTime := 0`,
`isResponseInProgress := false`, `pendingTranslation := ''`,
`isPTTActive := false`. -/
def connect (s : SessionState) : SessionState :=
  if s.sessionOpen then s
  else { s with sessionOpen := true, accumulated := "", lastTranslationTime := 0,
                isResponseInProgress := false, pendingTranslation := "",
                isPTTActive := false }

/-- `disconnect`: closes and clears the session reference and reports the
DISCONNECTED status.  It touches none of the translation refs. -/
def disconnect (s : SessionState) : SessionState :=
  { s with sessionOpen := false }

/-- The error thrown by `assertconnected` (`'RealtimeSession not connected'`). -/
inductive SessionError where
  | notConnected
  deriving DecidableEq, Repr

/-- `sendUserText`: `assertconnected()` then `session.sendMessage(text)`. -/
def sendUserText (text : String) (s : SessionState) : Except SessionError SessionState :=
  if s.sessionOpen = false then .error .notConnected
  else .ok { s with sent := s.sent ++ [.sendMessage text] }

/-- `sendEvent`: `sessionRef.current?.transport.sendEvent(ev)` — optional
chaining, a silent no-op without a session. -/
def sendEvent (ev : OutEvent) (s : SessionState) : Except SessionError SessionState :=
  if s.sessionOpen then .ok { s with sent := s.sent ++ [ev] } else .ok s

/-- `interrupt`: `sessionRef.current?.interrupt()`. -/
def interrupt (s : SessionState) : Except SessionError SessionState :=
  if s.sessionOpen then .ok { s with sent := s.sent ++ [.interruptCall] } else .ok s

/-- `mute`: `sessionRef.current?.mute(m)`. -/
def mute (m : Bool) (s : SessionState) : Except SessionError SessionState :=
  if s.sessionOpen then .ok { s with sent := s.sent ++ [.muteSet m] } else .ok s

/-- `pushToTalkStart`: early return without a session; otherwise sets the
PTT flag and clears the input audio buffer. -/
def pushToTalkStart (s : SessionState) : Except SessionError SessionState :=
  if s.sessionOpen = false then .ok s
  else .ok { s with isPTTActive := true, sent := s.sent ++ [.inputAudioBufferClear] }

/-- `pushToTalkStop`: early return without a session; otherwise clears the
PTT flag, commits the input audio buffer and requests a response. -/
def pushToTalkStop (s : SessionState) : Except SessionError SessionState :=
  if s.sessionOpen = false then .ok s
  else .ok { s with isPTTActive := false,
                    sent := s.sent ++ [.inputAudioBufferCommit, .responseCreatePTT] }

/-! ## Derived accounting used by the statements -/

/-- The texts delivered to the backend, in order: the payloads of the
`response.create` events issued by `sendTranslationRequest`. -/
def deliveredTexts (evs : List OutEvent) : List String :=
  evs.filterMap fun e =>
    match e with
    | .responseCreate t => some t
    | _ => none

/-- Concatenation of a list of strings. -/
def concatAll (l : List String) : String :=
  l.foldr (· ++ ·) ""

/-- All text a state accounts for: text already delivered to the backend,
then the coalesced pending text, then the not-yet-flushed buffer. -/
def allText (s : SessionState) : String :=
  concatAll (deliveredTexts s.sent) ++ s.pendingTranslation ++ s.accumulated

/-- The fragments appended by an event sequence, concatenated in order. -/
def deltasConcat (es : List InEvent) : String :=
  concatAll (es.filterMap fun e =>
    match e with
    | .transcriptionDelta d _ => some d
    | _ => none)

/-- The events the scheduler invariants quantify over: transcription
fragments and backend completions. -/
def isSchedulerEvent : InEvent → Bool
  | .transcriptionDelta _ _ => true
  | .responseDone => true
  | _ => false

/-- A freshly connected session: the state `connect` establishes. -/
def freshState : SessionState :=
  { sessionOpen := true, accumulated := "", lastTranslationTime := 0,
    isResponseInProgress := false, pendingTranslation := "",
    isPTTActive := false, sent := [] }

/-! ## Helper lemmas on trimming, stripping and token counting -/

theorem dropWhile_idem (p : α → Bool) (l : List α) :
    (l.dropWhile p).dropWhile p = l.dropWhile p := by
  induction l with
  | nil => rfl
  | cons c cs ih =>
    by_cases h : p c
    · simpa [List.dropWhile_cons, h] using ih
    · simp [List.dropWhile_cons, h]

theorem head?_dropWhile_false {p : α → Bool} {l : List α} {c : α}
    (h : (l.dropWhile p).head? = some c) : p c = false := by
  have := List.head?_dropWhile_not p l
  rw [h] at this
  exact this

theorem getLast?_dropWhile_ne {p : α → Bool} {l : List α}
    (h : l.dropWhile p ≠ []) : (l.dropWhile p).getLast? = l.getLast? := by
  induction l with
  | nil => simp [List.dropWhile] at h
  | cons c cs ih =>
    by_cases hc : p c
    · rw [List.dropWhile_cons_of_pos hc] at h ⊢
      rcases cs with _ | ⟨c', cs'⟩
      · simp [List.dropWhile] at h
      · rw [ih h, List.getLast?_cons_cons]
    · rw [List.dropWhile_cons_of_neg hc]

theorem filter_not_dropWhile (p : α → Bool) (l : List α) :
    (l.dropWhile p).filter (fun c => !p c) = l.filter (fun c => !p c) := by
  induction l with
  | nil => rfl
  | cons c cs ih =>
    by_cases h : p c
    · simpa [List.dropWhile_cons, List.filter_cons, h] using ih
    · simp [List.dropWhile_cons, List.filter_cons, h]

theorem dropWhile_eq_self_of_head {p : α → Bool} {l : List α}
    (h : ∀ c, l.head? = some c → p c = false) : l.dropWhile p = l := by
  cases l with
  | nil => rfl
  | cons c cs =>
    have hc : p c = false := h c rfl
    simp [List.dropWhile_cons, hc]

theorem trimChars_head? {l : List Char} {c : Char}
    (h : (trimChars l).head? = some c) : c.isWhitespace = false := by
  unfold trimChars at h
  rw [List.head?_reverse] at h
  have hne : (((l.dropWhile Char.isWhitespace).reverse).dropWhile Char.isWhitespace) ≠ [] := by
    intro he
    rw [he] at h
    simp at h
  rw [getLast?_dropWhile_ne hne, List.getLast?_reverse] at h
  exact head?_dropWhile_false h

theorem trimChars_getLast? {l : List Char} {c : Char}
    (h : (trimChars l).getLast? = some c) : c.isWhitespace = false := by
  unfold trimChars at h
  rw [List.getLast?_reverse] at h
  exact head?_dropWhile_false h

theorem trimChars_of_clean {l : List Char}
    (hh : ∀ c, l.head? = some c → c.isWhitespace = false)
    (hl : ∀ c, l.getLast? = some c → c.isWhitespace = false) :
    trimChars l = l := by
  unfold trimChars
  rw [dropWhile_eq_self_of_head hh]
  rw [dropWhile_eq_self_of_head (by
    intro c hc
    rw [List.head?_reverse] at hc
    exact hl c hc)]
  exact List.reverse_reverse l

theorem trimChars_idem (l : List Char) : trimChars (trimChars l) = trimChars l :=
  trimChars_of_clean (fun _ h => trimChars_head? h) (fun _ h => trimChars_getLast? h)

theorem filter_not_trimChars (l : List Char) :
    (trimChars l).filter (fun c => !c.isWhitespace) =
      l.filter (fun c => !c.isWhitespace) := by
  unfold trimChars
  rw [List.filter_reverse, filter_not_dropWhile, List.filter_reverse,
    List.reverse_reverse, filter_not_dropWhile]

theorem jsTrim_idem (s : String) : jsTrim (jsTrim s) = jsTrim s := by
  unfold jsTrim
  exact congrArg String.mk (trimChars_idem s.data)

theorem stripWs_append (s t : String) : stripWs (s ++ t) = stripWs s ++ stripWs t := by
  unfold stripWs
  apply String.ext
  simp [List.filter_append]

theorem stripWs_jsTrim (s : String) : stripWs (jsTrim s) = stripWs s := by
  unfold stripWs jsTrim
  exact congrArg String.mk (filter_not_trimChars s.data)

theorem stripWs_empty : stripWs "" = "" := rfl

theorem stripWs_eq_empty_of_jsTrim {s : String} (h : jsTrim s = "") : stripWs s = "" := by
  rw [← stripWs_jsTrim, h]
  rfl

theorem string_mk_eq_empty_iff (l : List Char) : String.mk l = "" ↔ l = [] := by
  constructor
  · intro h
    have := congrArg String.data h
    simpa using this
  · intro h
    rw [h]

theorem countTokens_jsTrim_pos {s : String} (h : jsTrim s ≠ "") :
    1 ≤ countTokens (jsTrim s) := by
  unfold countTokens
  rcases hd : (jsTrim s).data with _ | ⟨c, cs⟩
  · exact absurd (String.ext (show (jsTrim s).data = ("" : String).data by simpa using hd)) h
  · have hc : c.isWhitespace = false := by
      apply trimChars_head? (l := s.data)
      have : (jsTrim s).data = trimChars s.data := rfl
      rw [← this, hd]
      rfl
    simp [countTokensAux, hc]

theorem concatAll_append (l₁ l₂ : List String) :
    concatAll (l₁ ++ l₂) = concatAll l₁ ++ concatAll l₂ := by
  induction l₁ with
  | nil => simp [concatAll]
  | cons a l ih =>
    simp only [List.cons_append, concatAll, List.foldr_cons] at *
    rw [ih, String.append_assoc]

theorem stripWs_joinPending (p t : String) :
    stripWs (joinPending p t) = stripWs p ++ stripWs t := by
  unfold joinPending
  by_cases h : p = ""
  · simp [h, stripWs_empty]
  · simp only [h, if_false]
    rw [stripWs_append, stripWs_append]
    have : stripWs " " = "" := rfl
    rw [this, String.append_empty]

/-! ## Unfolding lemmas for the model -/

theorem jsWordCount_ge_one (s : String) : 1 ≤ jsWordCount s := by
  unfold jsWordCount
  by_cases h : jsTrim s = ""
  · simp [h]
  · simpa [h] using countTokens_jsTrim_pos h

theorem flushDecision_trim_ne {buf : String} {lastFlushAt now : Nat}
    (h : flushDecision buf lastFlushAt now = true) : jsTrim buf ≠ "" := by
  unfold flushDecision at h
  rcases Bool.and_eq_true .. |>.mp h with ⟨-, h2⟩
  simpa using h2

/-- The code's flush decision, rewritten through the genuine token count:
since `split(/\s+/)` never returns an empty array, the `words.length >= 1`
conjunct is vacuous on a nonempty trimmed buffer, and the trailing
truthiness check `accumulated.trim()` is what rules out empty buffers. -/
theorem flushDecision_eq (buf : String) (lastFlushAt now : Nat) :
    flushDecision buf lastFlushAt now =
      (decide (3 ≤ countTokens (jsTrim buf)) ||
        (decide (now - lastFlushAt > 1000) && decide (1 ≤ countTokens (jsTrim buf)))) := by
  by_cases h : jsTrim buf = ""
  · have h0 : countTokens (jsTrim buf) = 0 := by rw [h]; rfl
    have hz : countTokens ("" : String) = 0 := rfl
    simp [flushDecision, h, h0, hz]
  · have h1 : 1 ≤ countTokens (jsTrim buf) := countTokens_jsTrim_pos h
    have hw : jsWordCount buf = countTokens (jsTrim buf) := by
      unfold jsWordCount
      simp [h]
    simp [flushDecision, h, hw, h1]

theorem sendTranslationRequest_noop {t : String} {s : SessionState}
    (h : s.sessionOpen = false ∨ jsTrim t = "") :
    sendTranslationRequest t s = s := by
  unfold sendTranslationRequest sendTranslationRequestF
  simp [h]

theorem sendTranslationRequest_open {t : String} {s : SessionState}
    (hopen : s.sessionOpen = true) (ht : jsTrim t ≠ "") :
    sendTranslationRequest t s =
      { s with isResponseInProgress := true,
               sent := s.sent ++ [.responseCreate (jsTrim t)] } := by
  unfold sendTranslationRequest sendTranslationRequestF
  simp [hopen, ht]

theorem handle_transcriptionCompleted (s : SessionState) :
    handleTransportEvent .transcriptionCompleted s = { s with accumulated := "" } := rfl

theorem handle_delta_skip {s : SessionState} {d : String} {now : Nat}
    (h : s.sessionOpen = false ∨ d = "") :
    handleTransportEvent (.transcriptionDelta d now) s = s := by
  unfold handleTransportEvent
  rcases h with h | h <;> simp [h]

theorem handle_delta_noflush {s : SessionState} {d : String} {now : Nat}
    (hopen : s.sessionOpen = true) (hd : d ≠ "")
    (hf : flushDecision (s.accumulated ++ d) s.lastTranslationTime now = false) :
    handleTransportEvent (.transcriptionDelta d now) s =
      { s with accumulated := s.accumulated ++ d } := by
  unfold handleTransportEvent
  simp [hopen, hd, hf]

theorem handle_delta_flush_busy {s : SessionState} {d : String} {now : Nat}
    (hopen : s.sessionOpen = true) (hd : d ≠ "")
    (hf : flushDecision (s.accumulated ++ d) s.lastTranslationTime now = true)
    (hb : s.isResponseInProgress = true) :
    handleTransportEvent (.transcriptionDelta d now) s =
      { s with pendingTranslation :=
                 joinPending s.pendingTranslation (jsTrim (s.accumulated ++ d)),
               accumulated := "", lastTranslationTime := now } := by
  unfold handleTransportEvent
  simp [hopen, hd, hf, hb]

theorem handle_delta_flush_idle {s : SessionState} {d : String} {now : Nat}
    (hopen : s.sessionOpen = true) (hd : d ≠ "")
    (hf : flushDecision (s.accumulated ++ d) s.lastTranslationTime now = true)
    (hb : s.isResponseInProgress = false) :
    handleTransportEvent (.transcriptionDelta d now) s =
      { s with isResponseInProgress := true,
               sent := s.sent ++ [.responseCreate (jsTrim (s.accumulated ++ d))],
               accumulated := "", lastTranslationTime := now } := by
  unfold handleTransportEvent
  have htr : jsTrim (s.accumulated ++ d) ≠ "" := flushDecision_trim_ne hf
  have hsend := sendTranslationRequest_open (t := jsTrim (s.accumulated ++ d))
    (s := s) hopen (by rw [jsTrim_idem]; exact htr)
  rw [jsTrim_idem] at hsend
  simp [hopen, hd, hf, hb, hsend]

theorem handle_responseDone_empty {s : SessionState}
    (hp : s.pendingTranslation = "") :
    handleTransportEvent .responseDone s = { s with isResponseInProgress := false } := by
  unfold handleTransportEvent
  simp [hp]

theorem handle_responseDone_pending {s : SessionState}
    (hopen : s.sessionOpen = true) (hp : s.pendingTranslation ≠ "")
    (htr : jsTrim s.pendingTranslation ≠ "") :
    handleTransportEvent .responseDone s =
      { s with isResponseInProgress := true,
               sent := s.sent ++ [.responseCreate (jsTrim s.pendingTranslation)],
               pendingTranslation := "" } := by
  unfold handleTransportEvent
  have hsend := sendTranslationRequest_open (t := s.pendingTranslation)
    (s := { s with isResponseInProgress := false }) hopen htr
  simp [hp, hsend]

theorem handle_responseDone_pending_ws {s : SessionState}
    (hp : s.pendingTranslation ≠ "") (htr : jsTrim s.pendingTranslation = "") :
    handleTransportEvent .responseDone s =
      { s with isResponseInProgress := false, pendingTranslation := "" } := by
  unfold handleTransportEvent
  have hsend := sendTranslationRequest_noop
    (t := s.pendingTranslation) (s := { s with isResponseInProgress := false })
    (Or.inr htr)
  simp [hp, hsend]

/-- A flush certainly fires when the trimmed buffer is nonempty and strictly
more than 1000 ms have elapsed since the last flush. -/
theorem flushDecision_of_time {buf : String} {lastFlushAt now : Nat}
    (h1 : jsTrim buf ≠ "") (h2 : 1000 < now - lastFlushAt) :
    flushDecision buf lastFlushAt now = true := by
  rw [flushDecision_eq]
  have hc := countTokens_jsTrim_pos h1
  simp [hc, h2]

/-! ## Claim theorems -/

/-- C4, counterexample: the claim says a 1-token buffer triggers for every
elapsed time ≥ 1000 ms, but at exactly 1000 ms elapsed (buffer `"hello"`,
one token, `lastFlushAt = 0`, `now = 1000`) the code's decision is false:
the source compares `now - lastTranslationTimeRef.current > 1000` strictly. -/
theorem c4_flush_policy_counterexample :
    countTokens (jsTrim "hello") = 1 ∧ (1000 : Nat) - 0 ≥ 1000 ∧
    flushDecision "hello" 0 1000 = false := by decide

/-- C4, amended: the flush decision is a pure function of
`(bufferContent, lastFlushAt, now)` returning true iff the buffer contains
3 or more whitespace-separated tokens, or STRICTLY more than 1000 ms have
elapsed since the last flush and the buffer contains at least 1 token; an
empty buffer never triggers regardless of elapsed time. -/
theorem c4_flush_policy :
    (∀ (buf : String) (lastFlushAt now : Nat),
      flushDecision buf lastFlushAt now =
        (decide (3 ≤ countTokens (jsTrim buf)) ||
          (decide (1000 < now - lastFlushAt) && decide (1 ≤ countTokens (jsTrim buf))))) ∧
    (∀ lastFlushAt now : Nat, flushDecision "" lastFlushAt now = false) := by
  refine ⟨fun buf l n => flushDecision_eq buf l n, fun l n => ?_⟩
  rw [flushDecision_eq]
  have hz : countTokens (jsTrim "") = 0 := rfl
  simp [hz]

/-- C5, counterexample: `disconnect()` does NOT reset the accumulator buffer
nor clear `RequestInFlight`/`PendingText` — on the state below it leaves
`accumulated = "partial"`, `isResponseInProgress = true` and
`pendingTranslation = "stale"` untouched (it only closes the session). -/
theorem c5_reset_counterexample :
    (disconnect ⟨true, "partial", 7, true, "stale", false, []⟩).accumulated = "partial" ∧
    (disconnect ⟨true, "partial", 7, true, "stale", false, []⟩).isResponseInProgress = true ∧
    (disconnect ⟨true, "partial", 7, true, "stale", false, []⟩).pendingTranslation = "stale" := by
  decide

/-- C5, amended: `disconnect()` only closes the session and leaves the
accumulator buffer, `RequestInFlight` and `PendingText` untouched; the reset
happens in `connect()` after a successful handshake, so a reconnect still
starts with an empty buffer, no pending text, a cleared flag and
`lastFlushAt = 0` — text such as `"partial"` left in the buffer at
disconnect time is never flushed post-reconnect. -/
theorem c5_reset_on_disconnect (s : SessionState) :
    (disconnect s).accumulated = s.accumulated ∧
    (disconnect s).isResponseInProgress = s.isResponseInProgress ∧
    (disconnect s).pendingTranslation = s.pendingTranslation ∧
    (connect (disconnect s)).sessionOpen = true ∧
    (connect (disconnect s)).accumulated = "" ∧
    (connect (disconnect s)).pendingTranslation = "" ∧
    (connect (disconnect s)).isResponseInProgress = false ∧
    (connect (disconnect s)).lastTranslationTime = 0 := by
  simp [connect, disconnect]

/-- C8, counterexample: on a `transcription.completed` event the code only
empties the buffer; `lastFlushAt` (`lastTranslationTimeRef`) is NOT reset to
the current time — the handler reads no clock at all and leaves the stored
value (here 7) unchanged. -/
theorem c8_reset_on_finalization_counterexample :
    (handleTransportEvent .transcriptionCompleted
        ⟨true, "hello there", 7, false, "", false, []⟩).accumulated = "" ∧
    (handleTransportEvent .transcriptionCompleted
        ⟨true, "hello there", 7, false, "", false, []⟩).lastTranslationTime = 7 := by
  decide

/-- C8, amended: when a `transcription.completed` (finalization) event is
dispatched, the accumulator buffer is emptied and every other field of the
session state — including `lastFlushAt` — is left unchanged. -/
theorem c8_reset_on_finalization (s : SessionState) :
    handleTransportEvent .transcriptionCompleted s = { s with accumulated := "" } :=
  handle_transcriptionCompleted s

/-- C10: calling `sendTranslationRequest` with an empty or whitespace-only
string, or while no session is open, is a complete no-op: no backend event
is sent and the whole session state (in particular `RequestInFlight`,
`PendingText` and the accumulator buffer) is unchanged. -/
theorem c10_empty_submit_noop (s : SessionState) (t : String)
    (h : jsTrim t = "" ∨ s.sessionOpen = false) :
    sendTranslationRequest t s = s :=
  sendTranslationRequest_noop (Or.symm h)

/-- C10, witness: a whitespace-only submit on a fresh session is a no-op. -/
theorem c10_empty_submit_noop_witness :
    sendTranslationRequest "   " freshState = freshState :=
  c10_empty_submit_noop freshState "   " (Or.inl (by decide))

/-- C6, counterexample: invoked without an open session, `sendEvent`,
`interrupt` and `mute` do NOT fail with a NotConnected error — they return
successfully (optional chaining makes them silent no-ops); only
`sendUserText` goes through `assertconnected` and throws. -/
theorem c6_state_guard_counterexample :
    sendEvent .inputAudioBufferClear ⟨false, "", 0, false, "", false, []⟩ =
      Except.ok ⟨false, "", 0, false, "", false, []⟩ ∧
    interrupt ⟨false, "", 0, false, "", false, []⟩ =
      Except.ok ⟨false, "", 0, false, "", false, []⟩ ∧
    mute true ⟨false, "", 0, false, "", false, []⟩ =
      Except.ok ⟨false, "", 0, false, "", false, []⟩ :=
  ⟨rfl, rfl, rfl⟩

/-- C6, amended: every scheduler or send operation invoked while the session
is not connected performs no side effect — no backend event is dispatched
and no accumulator or coordinator state is mutated — but only `sendUserText`
fails with the NotConnected error; `sendEvent`, `interrupt`, `mute` and the
push-to-talk operations return silently without error. -/
theorem c6_state_guard (s : SessionState) (text : String) (ev : OutEvent) (m : Bool)
    (h : s.sessionOpen = false) :
    sendUserText text s = .error .notConnected ∧
    sendEvent ev s = .ok s ∧
    interrupt s = .ok s ∧
    mute m s = .ok s ∧
    pushToTalkStart s = .ok s ∧
    pushToTalkStop s = .ok s := by
  simp [sendUserText, sendEvent, interrupt, mute, pushToTalkStart, pushToTalkStop, h]

/-- C6, witness: the guard behaviour at a concrete disconnected state. -/
theorem c6_state_guard_witness :
    sendUserText "hi" ⟨false, "buf", 3, true, "pend", false, []⟩ =
      .error .notConnected ∧
    sendEvent .responseCreatePTT ⟨false, "buf", 3, true, "pend", false, []⟩ =
      .ok ⟨false, "buf", 3, true, "pend", false, []⟩ ∧
    interrupt ⟨false, "buf", 3, true, "pend", false, []⟩ =
      .ok ⟨false, "buf", 3, true, "pend", false, []⟩ ∧
    mute false ⟨false, "buf", 3, true, "pend", false, []⟩ =
      .ok ⟨false, "buf", 3, true, "pend", false, []⟩ ∧
    pushToTalkStart ⟨false, "buf", 3, true, "pend", false, []⟩ =
      .ok ⟨false, "buf", 3, true, "pend", false, []⟩ ∧
    pushToTalkStop ⟨false, "buf", 3, true, "pend", false, []⟩ =
      .ok ⟨false, "buf", 3, true, "pend", false, []⟩ :=
  c6_state_guard ⟨false, "buf", 3, true, "pend", false, []⟩ "hi" .responseCreatePTT false rfl

/-- C7, counterexample: when the transport send raises, `RequestInFlight` is
NOT cleared: the flag is assigned `true` before `transport.sendEvent` and no
handler clears it on the error path, so after the failure it is still true. -/
theorem c7_send_failed_counterexample :
    (sendTranslationRequestF true "hello" ⟨true, "", 0, false, "", false, []⟩).1.isResponseInProgress
      = true ∧
    (sendTranslationRequestF true "hello" ⟨true, "", 0, false, "", false, []⟩).2 = true := by
  decide

/-- C7, amended: if the outbound send raises while a session is open and the
text is non-blank, the error propagates to the caller, the failed text is
not re-queued into `PendingText` (which, like the buffer and the trace of
sent events, is unchanged) — but `RequestInFlight` remains SET, not cleared. -/
theorem c7_send_failed (s : SessionState) (t : String)
    (hopen : s.sessionOpen = true) (ht : jsTrim t ≠ "") :
    sendTranslationRequestF true t s = ({ s with isResponseInProgress := true }, true) := by
  unfold sendTranslationRequestF
  simp [hopen, ht]

/-- C7, witness: a failed send of `"hello"` on a fresh session raises and
leaves the flag set, the pending text empty and the trace empty. -/
theorem c7_send_failed_witness :
    sendTranslationRequestF true "hello" freshState =
      ({ freshState with isResponseInProgress := true }, true) :=
  c7_send_failed freshState "hello" rfl (by decide)

/-- C9: `connect()` initializes `lastFlushAt` (`lastTranslationTimeRef`) to 0,
so the first `transcription.delta` after connecting whose fragment has any
non-blank content triggers an immediate request for every
`now = Date.now() > 1000` — the 1000 ms latency floor never applies to the
first fragment of a session, even for a single word. -/
theorem c9_first_flush_immediate (s : SessionState) (d : String) (now : Nat)
    (hclosed : s.sessionOpen = false) (hnow : 1000 < now) (hd : jsTrim d ≠ "") :
    (connect s).lastTranslationTime = 0 ∧
    (handleTransportEvent (.transcriptionDelta d now) (connect s)).sent =
      (connect s).sent ++ [.responseCreate (jsTrim d)] ∧
    (handleTransportEvent (.transcriptionDelta d now) (connect s)).isResponseInProgress
      = true := by
  have hopen : (connect s).sessionOpen = true := by simp [connect, hclosed]
  have hzero : (connect s).lastTranslationTime = 0 := by simp [connect, hclosed]
  have hacc : (connect s).accumulated = "" := by simp [connect, hclosed]
  have hidle : (connect s).isResponseInProgress = false := by simp [connect, hclosed]
  have hd' : d ≠ "" := by
    intro h
    exact hd (by rw [h]; rfl)
  have hf : flushDecision ((connect s).accumulated ++ d)
      (connect s).lastTranslationTime now = true := by
    rw [hacc, hzero, String.empty_append]
    exact flushDecision_of_time hd (by omega)
  have he := handle_delta_flush_idle hopen hd' hf hidle
  rw [he]
  refine ⟨hzero, ?_, rfl⟩
  simp [hacc]

/-- C9, witness: connecting from an idle state and receiving the single-word
fragment `"hi"` at `now = 2000` issues the request at once. -/
theorem c9_first_flush_immediate_witness :
    (connect ⟨false, "old", 99, true, "stale", true, []⟩).lastTranslationTime = 0 ∧
    (handleTransportEvent (.transcriptionDelta "hi" 2000)
        (connect ⟨false, "old", 99, true, "stale", true, []⟩)).sent =
      (connect ⟨false, "old", 99, true, "stale", true, []⟩).sent ++
        [.responseCreate (jsTrim "hi")] ∧
    (handleTransportEvent (.transcriptionDelta "hi" 2000)
        (connect ⟨false, "old", 99, true, "stale", true, []⟩)).isResponseInProgress = true :=
  c9_first_flush_immediate ⟨false, "old", 99, true, "stale", true, []⟩ "hi" 2000
    rfl (by omega) (by decide)

theorem handle_responseDone_pending_closed {s : SessionState}
    (hopen : s.sessionOpen = false) (hp : s.pendingTranslation ≠ "") :
    handleTransportEvent .responseDone s =
      { s with isResponseInProgress := false, pendingTranslation := "" } := by
  unfold handleTransportEvent
  have hsend := sendTranslationRequest_noop (t := s.pendingTranslation)
    (s := { s with isResponseInProgress := false }) (Or.inl hopen)
  simp [hp, hsend]

/-- C1: single-flight.  First part: while `RequestInFlight`
(`isResponseInProgressRef`) is true, handling a `transcription.delta` never
issues a backend request — the trace of sent events is unchanged — and when
the flush policy triggers, the flushed text is space-joined into
`PendingText` (`pendingTranslationRef`) instead.  Second part: no single
inbound event ever issues more than one outbound call, so the flag marks at
most one outstanding request at any point of any event sequence. -/
theorem c1_single_flight :
    (∀ (s : SessionState) (d : String) (now : Nat), s.isResponseInProgress = true →
      (handleTransportEvent (.transcriptionDelta d now) s).sent = s.sent ∧
      (handleTransportEvent (.transcriptionDelta d now) s).pendingTranslation =
        (if s.sessionOpen = true ∧ d ≠ "" ∧
            flushDecision (s.accumulated ++ d) s.lastTranslationTime now = true
         then joinPending s.pendingTranslation (jsTrim (s.accumulated ++ d))
         else s.pendingTranslation)) ∧
    (∀ (e : InEvent) (s : SessionState),
      (handleTransportEvent e s).sent.length ≤ s.sent.length + 1) := by
  constructor
  · intro s d now hb
    by_cases hopen : s.sessionOpen = true
    · by_cases hd : d = ""
      · rw [handle_delta_skip (Or.inr hd)]
        simp [hd]
      · by_cases hf : flushDecision (s.accumulated ++ d) s.lastTranslationTime now = true
        · rw [handle_delta_flush_busy hopen hd hf hb]
          simp [hopen, hd, hf]
        · rw [handle_delta_noflush hopen hd (by simpa using hf)]
          simp [hf]
    · rw [handle_delta_skip (Or.inl (by simpa using hopen))]
      simp [hopen]
  · intro e s
    cases e with
    | transcriptionCompleted => simp [handleTransportEvent]
    | transcriptionDelta d now =>
      by_cases hopen : s.sessionOpen = true
      · by_cases hd : d = ""
        · rw [handle_delta_skip (Or.inr hd)]
          omega
        · by_cases hf : flushDecision (s.accumulated ++ d) s.lastTranslationTime now = true
          · by_cases hb : s.isResponseInProgress = true
            · rw [handle_delta_flush_busy hopen hd hf hb]
              simp
            · rw [handle_delta_flush_idle hopen hd hf (by simpa using hb)]
              simp
          · rw [handle_delta_noflush hopen hd (by simpa using hf)]
            simp
      · rw [handle_delta_skip (Or.inl (by simpa using hopen))]
        omega
    | responseDone =>
      by_cases hp : s.pendingTranslation = ""
      · rw [handle_responseDone_empty hp]
        simp
      · by_cases htr : jsTrim s.pendingTranslation = ""
        · rw [handle_responseDone_pending_ws hp htr]
          simp
        · by_cases hopen : s.sessionOpen = true
          · rw [handle_responseDone_pending hopen hp htr]
            simp
          · rw [handle_responseDone_pending_closed (by simpa using hopen) hp]
            simp
    | audioTranscriptDone => simp [handleTransportEvent]
    | audioTranscriptDelta => simp [handleTransportEvent]
    | other => simp [handleTransportEvent]

/-- C1, witness: a flush trigger arriving while a request is in flight (flag
true, one request already sent) leaves the trace unchanged and space-joins
the text into the pending buffer; and a completion event issues at most one
follow-up call. -/
theorem c1_single_flight_witness :
    ((handleTransportEvent (.transcriptionDelta " more words here" 5000)
        ⟨true, "txt", 0, true, "pend", false, [.responseCreate "txt0"]⟩).sent =
      (⟨true, "txt", 0, true, "pend", false, [.responseCreate "txt0"]⟩ : SessionState).sent ∧
     (handleTransportEvent (.transcriptionDelta " more words here" 5000)
        ⟨true, "txt", 0, true, "pend", false, [.responseCreate "txt0"]⟩).pendingTranslation =
      (if (⟨true, "txt", 0, true, "pend", false,
              [.responseCreate "txt0"]⟩ : SessionState).sessionOpen = true ∧
          (" more words here" : String) ≠ "" ∧
          flushDecision
            ((⟨true, "txt", 0, true, "pend", false,
                [.responseCreate "txt0"]⟩ : SessionState).accumulated ++ " more words here")
            (⟨true, "txt", 0, true, "pend", false,
                [.responseCreate "txt0"]⟩ : SessionState).lastTranslationTime 5000 = true
       then joinPending
              (⟨true, "txt", 0, true, "pend", false,
                  [.responseCreate "txt0"]⟩ : SessionState).pendingTranslation
              (jsTrim ((⟨true, "txt", 0, true, "pend", false,
                  [.responseCreate "txt0"]⟩ : SessionState).accumulated ++ " more words here"))
       else (⟨true, "txt", 0, true, "pend", false,
                [.responseCreate "txt0"]⟩ : SessionState).pendingTranslation)) ∧
    (handleTransportEvent .responseDone
        ⟨true, "txt", 0, true, "pend", false, [.responseCreate "txt0"]⟩).sent.length ≤
      (⟨true, "txt", 0, true, "pend", false,
          [.responseCreate "txt0"]⟩ : SessionState).sent.length + 1 :=
  ⟨c1_single_flight.1 ⟨true, "txt", 0, true, "pend", false, [.responseCreate "txt0"]⟩
      " more words here" 5000 rfl,
   c1_single_flight.2 .responseDone
      ⟨true, "txt", 0, true, "pend", false, [.responseCreate "txt0"]⟩⟩

/-- C3: coalescing drain.  From a fresh session, a fragment `a` flushed at
`now = 2000` issues a request carrying `a` (trimmed); a second fragment `b`
flushed at `now = 4000` while that request is in flight is parked in
`PendingText`; when `response.done` arrives, exactly one new request is
issued and it carries `b` — not `"a b"` and not two requests — after which
the pending text is empty and the new request is in flight. -/
theorem c3_coalescing_drain (a b : String) (ha : jsTrim a ≠ "") (hb : jsTrim b ≠ "") :
    (processEvents [.transcriptionDelta a 2000, .transcriptionDelta b 4000, .responseDone]
        freshState).sent =
      [.responseCreate (jsTrim a), .responseCreate (jsTrim b)] ∧
    (processEvents [.transcriptionDelta a 2000, .transcriptionDelta b 4000, .responseDone]
        freshState).pendingTranslation = "" ∧
    (processEvents [.transcriptionDelta a 2000, .transcriptionDelta b 4000, .responseDone]
        freshState).isResponseInProgress = true := by
  have ha' : a ≠ "" := fun h => ha (by rw [h]; rfl)
  have hb' : b ≠ "" := fun h => hb (by rw [h]; rfl)
  have hf1 : flushDecision (freshState.accumulated ++ a)
      freshState.lastTranslationTime 2000 = true := by
    show flushDecision ("" ++ a) 0 2000 = true
    rw [String.empty_append]
    exact flushDecision_of_time ha (by omega)
  have e1 : handleTransportEvent (.transcriptionDelta a 2000) freshState =
      ⟨true, "", 2000, true, "", false, [.responseCreate (jsTrim a)]⟩ := by
    rw [handle_delta_flush_idle rfl ha' hf1 rfl]
    rfl
  have hf2 : flushDecision
      ((⟨true, "", 2000, true, "", false,
          [.responseCreate (jsTrim a)]⟩ : SessionState).accumulated ++ b)
      (⟨true, "", 2000, true, "", false,
          [.responseCreate (jsTrim a)]⟩ : SessionState).lastTranslationTime 4000 = true := by
    show flushDecision ("" ++ b) 2000 4000 = true
    rw [String.empty_append]
    exact flushDecision_of_time hb (by omega)
  have e2 : handleTransportEvent (.transcriptionDelta b 4000)
      ⟨true, "", 2000, true, "", false, [.responseCreate (jsTrim a)]⟩ =
      ⟨true, "", 4000, true, jsTrim b, false, [.responseCreate (jsTrim a)]⟩ := by
    rw [handle_delta_flush_busy rfl hb' hf2 rfl]
    show (⟨true, "", 4000, true, joinPending "" (jsTrim ("" ++ b)), false,
        [.responseCreate (jsTrim a)]⟩ : SessionState) = _
    rw [String.empty_append]
    rfl
  have e3 : handleTransportEvent .responseDone
      ⟨true, "", 4000, true, jsTrim b, false, [.responseCreate (jsTrim a)]⟩ =
      ⟨true, "", 4000, true, "", false,
        [.responseCreate (jsTrim a), .responseCreate (jsTrim b)]⟩ := by
    rw [handle_responseDone_pending rfl hb (by rw [jsTrim_idem]; exact hb)]
    show (⟨true, "", 4000, true, "", false,
        [.responseCreate (jsTrim a), .responseCreate (jsTrim (jsTrim b))]⟩ : SessionState) = _
    rw [jsTrim_idem]
  unfold processEvents
  simp only [List.foldl_cons, List.foldl_nil]
  rw [e1, e2, e3]
  exact ⟨rfl, rfl, rfl⟩

/-- C3, witness: the drain scenario at the concrete fragments
`"first one"` and `"second"`. -/
theorem c3_coalescing_drain_witness :
    (processEvents [.transcriptionDelta "first one" 2000, .transcriptionDelta "second" 4000,
        .responseDone] freshState).sent =
      [.responseCreate (jsTrim "first one"), .responseCreate (jsTrim "second")] ∧
    (processEvents [.transcriptionDelta "first one" 2000, .transcriptionDelta "second" 4000,
        .responseDone] freshState).pendingTranslation = "" ∧
    (processEvents [.transcriptionDelta "first one" 2000, .transcriptionDelta "second" 4000,
        .responseDone] freshState).isResponseInProgress = true :=
  c3_coalescing_drain "first one" "second" (by decide) (by decide)

/-- The fragment an inbound event appends (`""` for non-delta events). -/
def deltaOf : InEvent → String
  | .transcriptionDelta d _ => d
  | _ => ""

theorem deltasConcat_cons (e : InEvent) (es : List InEvent) :
    deltasConcat (e :: es) = deltaOf e ++ deltasConcat es := by
  cases e <;> simp [deltasConcat, deltaOf, concatAll]

theorem deliveredTexts_append_create (evs : List OutEvent) (t : String) :
    deliveredTexts (evs ++ [.responseCreate t]) = deliveredTexts evs ++ [t] := by
  simp [deliveredTexts]

theorem concatAll_snoc (l : List String) (t : String) :
    concatAll (l ++ [t]) = concatAll l ++ t := by
  rw [concatAll_append]
  have : concatAll [t] = t := by simp [concatAll]
  rw [this]

/-- One dispatcher step preserves the no-loss accounting: on an open session
whose pending text is empty whenever no request is in flight, handling a
scheduler event extends the accounted text (delivered ++ pending ++ buffer)
by exactly the appended fragment, modulo whitespace; the session stays open
and the pending-text discipline is preserved. -/
theorem allText_step {s : SessionState} {e : InEvent}
    (hopen : s.sessionOpen = true)
    (hwf : s.isResponseInProgress = false → s.pendingTranslation = "")
    (hsched : isSchedulerEvent e = true) :
    stripWs (allText (handleTransportEvent e s)) = stripWs (allText s ++ deltaOf e) ∧
    (handleTransportEvent e s).sessionOpen = true ∧
    ((handleTransportEvent e s).isResponseInProgress = false →
      (handleTransportEvent e s).pendingTranslation = "") := by
  cases e with
  | transcriptionCompleted => simp [isSchedulerEvent] at hsched
  | audioTranscriptDone => simp [isSchedulerEvent] at hsched
  | audioTranscriptDelta => simp [isSchedulerEvent] at hsched
  | other => simp [isSchedulerEvent] at hsched
  | transcriptionDelta d now =>
    by_cases hd : d = ""
    · rw [handle_delta_skip (Or.inr hd)]
      refine ⟨?_, hopen, hwf⟩
      simp [deltaOf, hd]
    · by_cases hf : flushDecision (s.accumulated ++ d) s.lastTranslationTime now = true
      · by_cases hb : s.isResponseInProgress = true
        · rw [handle_delta_flush_busy hopen hd hf hb]
          refine ⟨?_, hopen, ?_⟩
          · simp [allText, deltaOf, stripWs_append, stripWs_joinPending, stripWs_jsTrim,
              stripWs_empty, String.append_assoc]
          · intro h
            simp [hb] at h
        · have hb' : s.isResponseInProgress = false := by simpa using hb
          have hpend : s.pendingTranslation = "" := hwf hb'
          rw [handle_delta_flush_idle hopen hd hf hb']
          refine ⟨?_, hopen, ?_⟩
          · simp [allText, deltaOf, deliveredTexts_append_create, concatAll_snoc,
              hpend, stripWs_append, stripWs_jsTrim, stripWs_empty,
              String.append_assoc]
          · intro h
            simp at h
      · rw [handle_delta_noflush hopen hd (by simpa using hf)]
        refine ⟨?_, hopen, ?_⟩
        · simp [allText, deltaOf, stripWs_append, String.append_assoc]
        · intro h
          exact hwf (by simpa using h)
  | responseDone =>
    by_cases hp : s.pendingTranslation = ""
    · rw [handle_responseDone_empty hp]
      refine ⟨?_, hopen, fun _ => hp⟩
      simp [allText, deltaOf, stripWs_append]
    · by_cases htr : jsTrim s.pendingTranslation = ""
      · rw [handle_responseDone_pending_ws hp htr]
        refine ⟨?_, hopen, fun _ => rfl⟩
        have hws : stripWs s.pendingTranslation = "" := stripWs_eq_empty_of_jsTrim htr
        simp [allText, deltaOf, stripWs_append, stripWs_empty, hws]
      · rw [handle_responseDone_pending hopen hp htr]
        refine ⟨?_, hopen, ?_⟩
        · simp [allText, deltaOf, deliveredTexts_append_create, concatAll_snoc,
            stripWs_append, stripWs_jsTrim, stripWs_empty, String.append_assoc]
        · intro h
          simp at h

/-- Folding the dispatcher over a scheduler-event sequence keeps the no-loss
accounting: the accounted text afterwards equals what it was plus all the
fragments appended by the sequence, modulo whitespace. -/
theorem allText_processEvents (es : List InEvent) : ∀ (s : SessionState),
    s.sessionOpen = true →
    (s.isResponseInProgress = false → s.pendingTranslation = "") →
    (∀ e ∈ es, isSchedulerEvent e = true) →
    stripWs (allText (processEvents es s)) = stripWs (allText s ++ deltasConcat es) := by
  induction es with
  | nil =>
    intro s _ _ _
    simp [processEvents, deltasConcat, concatAll]
  | cons e es ih =>
    intro s hopen hwf hsched
    have hstep := allText_step hopen hwf (hsched e (List.mem_cons_self e es))
    have hrest := ih (handleTransportEvent e s) hstep.2.1 hstep.2.2
      (fun e' he' => hsched e' (List.mem_cons_of_mem e he'))
    have hfold : processEvents (e :: es) s = processEvents es (handleTransportEvent e s) := rfl
    rw [hfold, hrest, deltasConcat_cons]
    rw [stripWs_append, stripWs_append, hstep.1, stripWs_append, stripWs_append,
      String.append_assoc]

/-- C2: no-loss.  Starting from a freshly connected session, for any sequence
of `transcription.delta` fragments interleaved with `response.done`
completions, the concatenation of all text ever delivered to the backend,
followed by the coalesced pending text and the not-yet-flushed buffer,
equals the concatenation of all appended fragments in order, modulo the
whitespace trimming/space-joining rule (compared with all whitespace
removed): no fragment is dropped and none is delivered twice.  In
particular, whenever the buffer and the pending text have been fully
drained, the delivered text alone accounts for every appended fragment. -/
theorem c2_no_loss (es : List InEvent) (h : ∀ e ∈ es, isSchedulerEvent e = true) :
    stripWs (concatAll (deliveredTexts (processEvents es freshState).sent) ++
        (processEvents es freshState).pendingTranslation ++
        (processEvents es freshState).accumulated) =
      stripWs (deltasConcat es) ∧
    ((processEvents es freshState).pendingTranslation = "" →
      (processEvents es freshState).accumulated = "" →
      stripWs (concatAll (deliveredTexts (processEvents es freshState).sent)) =
        stripWs (deltasConcat es)) := by
  have hmain := allText_processEvents es freshState rfl (fun _ => rfl) h
  have hfresh : allText freshState = "" := rfl
  rw [hfresh, String.empty_append] at hmain
  refine ⟨hmain, fun hp ha => ?_⟩
  rw [← hmain]
  unfold allText
  rw [hp, ha, String.append_empty, String.append_empty]

/-- C2, witness: a concrete interleaving — a flushed fragment, a fragment
parked during the in-flight request, its coalesced delivery on completion,
and a trailing fragment left in the buffer — accounts for every fragment. -/
theorem c2_no_loss_witness :
    stripWs (concatAll (deliveredTexts (processEvents
        [.transcriptionDelta "hello world" 2000, .transcriptionDelta " again" 4000,
         .responseDone, .transcriptionDelta "tail" 4100] freshState).sent) ++
        (processEvents
        [.transcriptionDelta "hello world" 2000, .transcriptionDelta " again" 4000,
         .responseDone, .transcriptionDelta "tail" 4100] freshState).pendingTranslation ++
        (processEvents
        [.transcriptionDelta "hello world" 2000, .transcriptionDelta " again" 4000,
         .responseDone, .transcriptionDelta "tail" 4100] freshState).accumulated) =
      stripWs (deltasConcat
        [.transcriptionDelta "hello world" 2000, .transcriptionDelta " again" 4000,
         .responseDone, .transcriptionDelta "tail" 4100]) :=
  (c2_no_loss
    [.transcriptionDelta "hello world" 2000, .transcriptionDelta " again" 4000,
     .responseDone, .transcriptionDelta "tail" 4100] (by decide)).1

example : jsTrim "  hello world  " = "hello world" := by decide
example : countTokens "hello brave world" = 3 := by decide
example : jsWordCount "" = 1 := by decide
example : jsWordCount "  " = 1 := by decide
example : jsWordCount " one  two " = 2 := by decide
example : flushDecision "one two three" 0 0 = true := by decide
example : flushDecision "hello" 0 1001 = true := by decide
example : flushDecision "hello" 0 1000 = false := by decide
example : flushDecision "" 0 999999 = false := by decide
example : connect (disconnect freshState) = freshState := by decide
